import Mathlib

/-
Verification of the reconciliation core of the maximba/kubernetes-operator
repository.  Go code is shallowly embedded: pure helpers become Lean
functions, platform calls become environment-provided outcomes, and the
side effects of a reconcile cycle (restart actions, notification events)
are collected in explicit traces.
-/

namespace KubernetesOperator

/-! ## Ownership event router (controllers/jenkins_controller, enqueueRequestForJenkins) -/

/-- Label map of a Kubernetes object: association list; lookup of a missing
key yields the empty string, matching Go map semantics for `map[string]string`. -/
def labelsGet (ls : List (String × String)) (k : String) : String :=
  match ls.find? (fun kv => kv.1 == k) with
  | some kv => kv.2
  | none => ""

/-- Modelled from the spec: the application-marker label key (the constant
`constants.LabelAppKey`; the constants package is not under src/).  Its exact
value does not matter for any claim, only that it is a fixed key. -/
def labelAppKey : String := "app.kubernetes.io/name"

/-- Modelled from the spec: the expected application-marker label value
(`constants.LabelAppValue`, not under src/). -/
def labelAppValue : String := "jenkins-operator"

/-- Modelled from the spec: the watched-marker label key
(`constants.LabelWatchKey`, not under src/). -/
def labelWatchKey : String := "jenkins.io/watch"

/-- Modelled from the spec: the expected watched-marker label value
(`constants.LabelWatchValue`, not under src/). -/
def labelWatchValue : String := "true"

/-- Modelled from the spec: the owning-instance-name label key
(`constants.LabelJenkinsCRKey`, not under src/). -/
def labelJenkinsCRKey : String := "jenkins.io/cr"

/-- A secondary Kubernetes resource as seen by the event router: its
namespace, name and labels (`metav1.Object`). -/
structure K8sObject where
  nspace : String
  name : String
  labels : List (String × String)
deriving DecidableEq, Repr

/-- A reconcile request (`reconcile.Request`): namespaced name of the owning
Jenkins instance. -/
structure ReconcileRequest where
  nspace : String
  name : String
deriving DecidableEq, Repr

/-- Embeds `enqueueRequestForJenkins.getOwnerReconcileRequests`: yields a
request from the object labels when the application marker, the watched
marker and a non-empty owning-instance-name label are all present. -/
def getOwnerReconcileRequests (o : K8sObject) : Option ReconcileRequest :=
  if labelsGet o.labels labelAppKey == labelAppValue &&
     labelsGet o.labels labelWatchKey == labelWatchValue &&
     (labelsGet o.labels labelJenkinsCRKey).length > 0 then
    some { nspace := o.nspace, name := labelsGet o.labels labelJenkinsCRKey }
  else
    none

/-- Embeds `enqueueRequestForJenkins.Create`: the requests added to the work
queue for a create event. -/
def enqueueCreate (o : K8sObject) : List ReconcileRequest :=
  match getOwnerReconcileRequests o with
  | some r => [r]
  | none => []

/-- Embeds `enqueueRequestForJenkins.Delete`. -/
def enqueueDelete (o : K8sObject) : List ReconcileRequest :=
  match getOwnerReconcileRequests o with
  | some r => [r]
  | none => []

/-- Embeds `enqueueRequestForJenkins.Generic`. -/
def enqueueGeneric (o : K8sObject) : List ReconcileRequest :=
  match getOwnerReconcileRequests o with
  | some r => [r]
  | none => []

/-- Embeds `enqueueRequestForJenkins.Update`: the old object request is
computed first; if it exists it is enqueued and the handler returns,
otherwise the new object request is enqueued when it exists.  (The logging
branch compares nothing that affects the queue.) -/
def enqueueUpdate (oldObj newObj : K8sObject) : List ReconcileRequest :=
  match getOwnerReconcileRequests oldObj with
  | some r => [r]
  | none =>
    match getOwnerReconcileRequests newObj with
    | some r => [r]
    | none => []

/-- The three label conditions of the router, as a proposition. -/
def ownerLabelsValid (o : K8sObject) : Prop :=
  labelsGet o.labels labelAppKey = labelAppValue ∧
  labelsGet o.labels labelWatchKey = labelWatchValue ∧
  (labelsGet o.labels labelJenkinsCRKey).length > 0

instance (o : K8sObject) : Decidable (ownerLabelsValid o) := by
  unfold ownerLabelsValid; infer_instance

theorem getOwnerReconcileRequests_eq (o : K8sObject) :
    getOwnerReconcileRequests o =
      if ownerLabelsValid o then
        some { nspace := o.nspace, name := labelsGet o.labels labelJenkinsCRKey }
      else none := by
  unfold getOwnerReconcileRequests ownerLabelsValid
  split <;> rename_i h
  · rw [if_pos]
    simp only [Bool.and_eq_true, beq_iff_eq, decide_eq_true_eq] at h
    exact ⟨h.1.1, h.1.2, h.2⟩
  · rw [if_neg]
    intro hc
    simp only [Bool.and_eq_true, beq_iff_eq, decide_eq_true_eq] at h
    exact h ⟨⟨hc.1, hc.2.1⟩, hc.2.2⟩

/-- C6: the owner-key derivation is a pure function of the labels: it yields
the request (resource namespace, owning-instance-name label) exactly when the
application marker, the watched marker and a non-empty owning-instance-name
label all hold; otherwise it yields nothing and create, delete and generic
events enqueue no reconcile request. -/
theorem ownerRouter_pure_label_function (o : K8sObject) :
    (getOwnerReconcileRequests o =
        some { nspace := o.nspace, name := labelsGet o.labels labelJenkinsCRKey } ↔
      ownerLabelsValid o) ∧
    (¬ ownerLabelsValid o →
      getOwnerReconcileRequests o = none ∧
      enqueueCreate o = [] ∧ enqueueDelete o = [] ∧ enqueueGeneric o = []) := by
  constructor
  · rw [getOwnerReconcileRequests_eq]
    constructor
    · intro h
      by_contra hc
      rw [if_neg hc] at h
      exact Option.noConfusion h
    · intro h
      rw [if_pos h]
  · intro h
    have hnone : getOwnerReconcileRequests o = none := by
      rw [getOwnerReconcileRequests_eq, if_neg h]
    refine ⟨hnone, ?_, ?_, ?_⟩ <;>
      simp [enqueueCreate, enqueueDelete, enqueueGeneric, hnone]

/-- Witness for C6: on a concrete object carrying all three labels the router
yields the owning-instance request, and stripping the watch label yields
nothing. -/
theorem ownerRouter_pure_label_function_witness :
    (getOwnerReconcileRequests
        { nspace := "ns1", name := "cfg", labels :=
            [(labelAppKey, labelAppValue), (labelWatchKey, labelWatchValue),
             (labelJenkinsCRKey, "my-jenkins")] } =
      some { nspace := "ns1", name := "my-jenkins" }) ∧
    (enqueueCreate { nspace := "ns1", name := "cfg", labels := [] } = []) := by
  constructor
  · exact (ownerRouter_pure_label_function _).1.mpr (by decide)
  · exact ((ownerRouter_pure_label_function _).2 (by decide)).2.1

/-- C9: an update event enqueues at most one reconcile request; when both the
old and the new object carry valid owner labels, only the old object request
is enqueued. -/
theorem updateRouter_at_most_one_request (oldObj newObj : K8sObject) :
    (enqueueUpdate oldObj newObj).length ≤ 1 ∧
    (∀ r1 r2, getOwnerReconcileRequests oldObj = some r1 →
      getOwnerReconcileRequests newObj = some r2 →
      enqueueUpdate oldObj newObj = [r1]) := by
  constructor
  · unfold enqueueUpdate
    split
    · exact Nat.le_refl 1
    · split
      · exact Nat.le_refl 1
      · exact Nat.zero_le 1
  · intro r1 r2 h1 _
    unfold enqueueUpdate
    rw [h1]

/-- Witness for C9: two concrete objects whose owning-instance labels differ;
the update handler enqueues only the old object request. -/
theorem updateRouter_at_most_one_request_witness :
    enqueueUpdate
      { nspace := "ns1", name := "cfg", labels :=
          [(labelAppKey, labelAppValue), (labelWatchKey, labelWatchValue),
           (labelJenkinsCRKey, "jenkins-a")] }
      { nspace := "ns1", name := "cfg", labels :=
          [(labelAppKey, labelAppValue), (labelWatchKey, labelWatchValue),
           (labelJenkinsCRKey, "jenkins-b")] } =
      [{ nspace := "ns1", name := "jenkins-a" }] :=
  (updateRouter_at_most_one_request _ _).2
    { nspace := "ns1", name := "jenkins-a" }
    { nspace := "ns1", name := "jenkins-b" }
    (by decide) (by decide)

/-! ## Route API capability probe (pkg/configuration/base/resources/route.go) -/

/-- The process-wide mutable state of route.go: the package-level variables
`isRouteAPIAvailable` and `routeAPIChecked`. -/
structure RouteAPIState where
  isRouteAPIAvailable : Bool
  routeAPIChecked : Bool
deriving DecidableEq, Repr

/-- Initial values of the package-level variables (`false`, `false`). -/
def initialRouteAPIState : RouteAPIState :=
  { isRouteAPIAvailable := false, routeAPIChecked := false }

/-- Embeds `IsRouteAPIAvailable`.  The discovery probe
(`discovery.ServerSupportsVersion`) is an external call; its outcome is the
boolean argument `probeSupports` (true when the call returns no error).
Returns the boolean result, the updated package state, and whether the
probe was actually performed on this call. -/
def isRouteAPIAvailableCall (probeSupports : Bool) (s : RouteAPIState) :
    Bool × RouteAPIState × Bool :=
  if s.routeAPIChecked then
    (s.isRouteAPIAvailable, s, false)
  else
    (probeSupports,
     { isRouteAPIAvailable := probeSupports, routeAPIChecked := true }, true)

/-- C7: the probe result is memoized: after any first call of
`IsRouteAPIAvailable`, every later call returns the same cached boolean,
leaves the state unchanged, and performs no further discovery probe. -/
theorem isRouteAPIAvailable_memoized (s : RouteAPIState) (p1 p2 : Bool) :
    isRouteAPIAvailableCall p2 (isRouteAPIAvailableCall p1 s).2.1 =
      ((isRouteAPIAvailableCall p1 s).1, (isRouteAPIAvailableCall p1 s).2.1, false) := by
  unfold isRouteAPIAvailableCall
  by_cases h : s.routeAPIChecked = true
  · simp [h]
  · simp [h]

/-! ## Operator credentials secret (reconciler.go, createOperatorCredentialsSecret) -/

/-- Modelled from the spec: the two data keys of the operator credentials
secret (`resources.OperatorCredentialsSecretUserNameKey` and
`...PasswordKey`; the resources file holding them is not under src/).  The
exact strings are irrelevant to the claim. -/
def operatorCredentialsSecretUserNameKey : String := "user"

/-- Modelled from the spec: the password data key of the operator
credentials secret. -/
def operatorCredentialsSecretPasswordKey : String := "password"

/-- The data of a Kubernetes secret: association list from key to byte
string.  A key present with an empty value models a non-nil empty slice;
an absent key models Go `nil`. -/
def secretDataGet (d : List (String × List Nat)) (k : String) : Option (List Nat) :=
  match d.find? (fun kv => kv.1 == k) with
  | some kv => some kv.2
  | none => none

/-- Outcome of the initial `Client.Get` on the credentials secret. -/
inductive SecretGetOutcome where
  | found (data : List (String × List Nat))
  | notFound
  | otherError
deriving DecidableEq, Repr

/-- The write action `createOperatorCredentialsSecret` performs. -/
inductive SecretAction where
  | noWrite
  | create
  | update
  | fail
deriving DecidableEq, Repr

/-- Embeds `createOperatorCredentialsSecret`: create on not-found, propagate
other errors, return without writing when both credential keys hold non-nil
data, otherwise update. -/
def createOperatorCredentialsSecret (get : SecretGetOutcome) : SecretAction :=
  match get with
  | SecretGetOutcome.notFound => SecretAction.create
  | SecretGetOutcome.otherError => SecretAction.fail
  | SecretGetOutcome.found d =>
    if (secretDataGet d operatorCredentialsSecretUserNameKey).isSome &&
       (secretDataGet d operatorCredentialsSecretPasswordKey).isSome then
      SecretAction.noWrite
    else
      SecretAction.update

/-- C8: when the credentials secret exists and has non-nil data under both
the username and the password key, no write is performed; an update is
issued exactly when the secret exists and at least one of the two keys is
missing. -/
theorem createOperatorCredentialsSecret_frame (d : List (String × List Nat)) :
    ((secretDataGet d operatorCredentialsSecretUserNameKey).isSome ∧
        (secretDataGet d operatorCredentialsSecretPasswordKey).isSome →
      createOperatorCredentialsSecret (SecretGetOutcome.found d) =
        SecretAction.noWrite) ∧
    (createOperatorCredentialsSecret (SecretGetOutcome.found d) =
        SecretAction.update ↔
      ¬((secretDataGet d operatorCredentialsSecretUserNameKey).isSome ∧
        (secretDataGet d operatorCredentialsSecretPasswordKey).isSome)) := by
  have hred : createOperatorCredentialsSecret (SecretGetOutcome.found d) =
      if (secretDataGet d operatorCredentialsSecretUserNameKey).isSome &&
         (secretDataGet d operatorCredentialsSecretPasswordKey).isSome then
        SecretAction.noWrite
      else SecretAction.update := rfl
  rw [hred]
  by_cases h : (secretDataGet d operatorCredentialsSecretUserNameKey).isSome &&
      (secretDataGet d operatorCredentialsSecretPasswordKey).isSome
  · rw [if_pos h]
    simp only [Bool.and_eq_true] at h
    constructor
    · intro; rfl
    · constructor
      · intro hc; exact absurd hc (by simp)
      · intro hc; exact absurd ⟨h.1, h.2⟩ hc
  · rw [if_neg h]
    simp only [Bool.and_eq_true] at h
    constructor
    · intro hc; exact absurd ⟨hc.1, hc.2⟩ h
    · constructor
      · intro _ hc; exact h ⟨hc.1, hc.2⟩
      · intro; rfl

/-- Witness for C8: a secret holding both keys triggers no write; a secret
missing the password key triggers an update. -/
theorem createOperatorCredentialsSecret_frame_witness :
    createOperatorCredentialsSecret
        (SecretGetOutcome.found
          [(operatorCredentialsSecretUserNameKey, [1]),
           (operatorCredentialsSecretPasswordKey, [2])]) =
      SecretAction.noWrite ∧
    createOperatorCredentialsSecret
        (SecretGetOutcome.found [(operatorCredentialsSecretUserNameKey, [1])]) =
      SecretAction.update := by
  constructor
  · exact (createOperatorCredentialsSecret_frame _).1 (by decide)
  · exact (createOperatorCredentialsSecret_frame
      [(operatorCredentialsSecretUserNameKey, [1])]).2.mpr (by decide)

/-! ## Extra RBAC reconciliation (base package, ensureExtraRBAC) -/

/-- Embeds Go `strings.HasPrefix s pre` as a character-list prefix test
(computable, unlike `String.isPrefixOf` which recurses on byte positions). -/
def strStartsWith (s pre : String) : Bool :=
  pre.data.isPrefixOf s.data

/-- A `rbacv1.RoleRef` restricted to the fields the code reads. -/
structure RoleRef where
  kind : String
  name : String
deriving DecidableEq, Repr

/-- Embeds `getExtraRoleBindingName`: the deterministic binding name
`<serviceAccount>-<kind-tag>-<role>` with kind-tag `cr` for ClusterRole and
`r` otherwise. -/
def getExtraRoleBindingName (serviceAccountName : String) (roleRef : RoleRef) : String :=
  serviceAccountName ++ "-" ++ (if roleRef.kind == "ClusterRole" then "cr" else "r")
    ++ "-" ++ roleRef.name

/-- Embeds the cleanup loop of `ensureExtraRBAC`: among the role binding
names listed in the namespace, those carrying one of the two managed
prefixes (the names computed for an empty Role and an empty ClusterRole)
and equal to no name computed from the desired role list are deleted. -/
def ensureExtraRBACDeleted (instName : String) (roles : List RoleRef)
    (bindingNames : List String) : List String :=
  bindingNames.filter (fun b =>
    (strStartsWith b (getExtraRoleBindingName instName { kind := "Role", name := "" }) ||
     strStartsWith b (getExtraRoleBindingName instName { kind := "ClusterRole", name := "" })) &&
    !(roles.any (fun r => b == getExtraRoleBindingName instName r)))

/-- C2: a listed role binding is deleted iff its name carries the managed
prefix `<instance>-r-` or `<instance>-cr-` and equals none of the names
computed from the desired role list; bindings without the managed prefix are
never deleted. -/
theorem ensureExtraRBAC_deletes_iff (instName : String) (roles : List RoleRef)
    (bindingNames : List String) (b : String) :
    b ∈ ensureExtraRBACDeleted instName roles bindingNames ↔
      b ∈ bindingNames ∧
      (strStartsWith b (instName ++ "-r-") ∨ strStartsWith b (instName ++ "-cr-")) ∧
      ∀ r ∈ roles, b ≠ getExtraRoleBindingName instName r := by
  have hr : getExtraRoleBindingName instName { kind := "Role", name := "" } =
      instName ++ "-r-" := by
    apply String.ext
    simp [getExtraRoleBindingName, String.data_append]
  have hcr : getExtraRoleBindingName instName { kind := "ClusterRole", name := "" } =
      instName ++ "-cr-" := by
    apply String.ext
    simp [getExtraRoleBindingName, String.data_append]
  unfold ensureExtraRBACDeleted
  rw [List.mem_filter, hr, hcr]
  simp only [Bool.and_eq_true, Bool.or_eq_true, Bool.not_eq_true',
    List.any_eq_false, beq_eq_false_iff_ne, beq_iff_eq, ne_eq, and_assoc]

/-- Witness for C2: with instance `j` and one desired role `keep`, the stale
managed binding `j-r-old` is deleted while the foreign binding `other` is
not. -/
theorem ensureExtraRBAC_deletes_iff_witness :
    ("j-r-old" : String) ∈
      ensureExtraRBACDeleted "j" [{ kind := "Role", name := "keep" }]
        ["j-r-keep", "j-r-old", "other"] ∧
    ("other" : String) ∉
      ensureExtraRBACDeleted "j" [{ kind := "Role", name := "keep" }]
        ["j-r-keep", "j-r-old", "other"] := by
  constructor
  · exact (ensureExtraRBAC_deletes_iff _ _ _ _).mpr (by decide)
  · intro h
    exact absurd ((ensureExtraRBAC_deletes_iff _ _ _ _).mp h) (by decide)

/-! ## Base configuration config map (resources/base_configuration_configmap.go) -/

/-- The seven groovy script entry keys of the base configuration config map. -/
def basicSettingsGroovyScriptName : String := "1-basic-settings.groovy"

/-- Key of the CSRF-enabling script entry. -/
def enableCSRFGroovyScriptName : String := "2-enable-csrf.groovy"

/-- Key of the usage-stats script entry. -/
def disableUsageStatsGroovyScriptName : String := "3-disable-usage-stats.groovy"

/-- Key of the insecure-features script entry. -/
def disableInsecureFeaturesGroovyScriptName : String := "4-disable-insecure-features.groovy"

/-- Key of the kubernetes-plugin script entry. -/
def configureKubernetesPluginGroovyScriptName : String := "5-configure-kubernetes-plugin.groovy"

/-- Key of the views script entry. -/
def configureViewsGroovyScriptName : String := "6-configure-views.groovy"

/-- Key of the job-dsl script entry. -/
def disableJobDslScriptApprovalGroovyScriptName : String := "7-disable-job-dsl-script-approval.groovy"

/-- The content values of the seven entries.  The spec treats script content
as opaque named-string payloads, and several contents are produced by
formatting helpers outside src/, so they are carried as parameters; the
claim concerns only which keys are present. -/
structure GroovyContents where
  basicSettings : String
  enableCSRF : String
  disableUsageStats : String
  disableInsecureFeatures : String
  configureKubernetesPlugin : String
  configureViews : String
  disableJobDslScriptApproval : String
deriving DecidableEq, Repr

/-- The `groovyScriptsMap` literal of `NewBaseConfigurationConfigMap`, as an
association list in source order. -/
def groovyScriptsMap (c : GroovyContents) : List (String × String) :=
  [(basicSettingsGroovyScriptName, c.basicSettings),
   (enableCSRFGroovyScriptName, c.enableCSRF),
   (disableUsageStatsGroovyScriptName, c.disableUsageStats),
   (disableInsecureFeaturesGroovyScriptName, c.disableInsecureFeatures),
   (configureKubernetesPluginGroovyScriptName, c.configureKubernetesPlugin),
   (configureViewsGroovyScriptName, c.configureViews),
   (disableJobDslScriptApprovalGroovyScriptName, c.disableJobDslScriptApproval)]

/-- Embeds the `Data` construction of `NewBaseConfigurationConfigMap`: the
script map, with the CSRF entry removed when the instance spec sets
`Master.DisableCSRFProtection`. -/
def newBaseConfigurationConfigMapData (disableCSRFProtection : Bool)
    (c : GroovyContents) : List (String × String) :=
  if disableCSRFProtection then
    (groovyScriptsMap c).filter (fun kv => kv.1 != enableCSRFGroovyScriptName)
  else
    groovyScriptsMap c

/-- Map lookup over the config map data. -/
def configMapGet (m : List (String × String)) (k : String) : Option String :=
  match m.find? (fun kv => kv.1 == k) with
  | some kv => some kv.2
  | none => none

/-- C10: the built config map data contains the `2-enable-csrf.groovy` entry
iff `DisableCSRFProtection` is false, and the six other script entries are
present for either flag value. -/
theorem newBaseConfigurationConfigMapData_keys (disableCSRFProtection : Bool)
    (c : GroovyContents) :
    ((configMapGet (newBaseConfigurationConfigMapData disableCSRFProtection c)
        enableCSRFGroovyScriptName).isSome ↔ disableCSRFProtection = false) ∧
    ∀ k ∈ [basicSettingsGroovyScriptName, disableUsageStatsGroovyScriptName,
        disableInsecureFeaturesGroovyScriptName,
        configureKubernetesPluginGroovyScriptName, configureViewsGroovyScriptName,
        disableJobDslScriptApprovalGroovyScriptName],
      (configMapGet (newBaseConfigurationConfigMapData disableCSRFProtection c)
        k).isSome := by
  cases disableCSRFProtection <;>
    simp [newBaseConfigurationConfigMapData, groovyScriptsMap, configMapGet,
      basicSettingsGroovyScriptName, enableCSRFGroovyScriptName,
      disableUsageStatsGroovyScriptName, disableInsecureFeaturesGroovyScriptName,
      configureKubernetesPluginGroovyScriptName, configureViewsGroovyScriptName,
      disableJobDslScriptApprovalGroovyScriptName, List.find?]

/-- Witness for C10: with the flag set the CSRF entry is absent, with it
unset the entry is present, and the basic-settings entry is present in both
cases (shown here for the flag-set map). -/
theorem newBaseConfigurationConfigMapData_keys_witness :
    ¬(configMapGet
        (newBaseConfigurationConfigMapData true
          { basicSettings := "a", enableCSRF := "b", disableUsageStats := "c",
            disableInsecureFeatures := "d", configureKubernetesPlugin := "e",
            configureViews := "f", disableJobDslScriptApproval := "g" })
        enableCSRFGroovyScriptName).isSome ∧
    (configMapGet
        (newBaseConfigurationConfigMapData false
          { basicSettings := "a", enableCSRF := "b", disableUsageStats := "c",
            disableInsecureFeatures := "d", configureKubernetesPlugin := "e",
            configureViews := "f", disableJobDslScriptApproval := "g" })
        enableCSRFGroovyScriptName).isSome ∧
    (configMapGet
        (newBaseConfigurationConfigMapData true
          { basicSettings := "a", enableCSRF := "b", disableUsageStats := "c",
            disableInsecureFeatures := "d", configureKubernetesPlugin := "e",
            configureViews := "f", disableJobDslScriptApproval := "g" })
        basicSettingsGroovyScriptName).isSome := by
  refine ⟨fun h => ?_, ?_, ?_⟩
  · exact Bool.noConfusion ((newBaseConfigurationConfigMapData_keys true _).1.mp h)
  · exact (newBaseConfigurationConfigMapData_keys false _).1.mpr rfl
  · exact (newBaseConfigurationConfigMapData_keys true _).2
      basicSettingsGroovyScriptName (by simp)

/-! ## Notification dispatcher (pkg/notifications/sender.go, Listen) -/

/-- Severity levels of notification events (`v1alpha2.NotificationLevel`). -/
inductive NotificationLevel where
  | info
  | warning
deriving DecidableEq, Repr

/-- Restart sources (`reason` package, not under src/).  Modelled from the
spec: RestartReason is a tagged variant over operator, platform (Kubernetes)
and user sources. -/
inductive RestartSource where
  | operator
  | kubernetes
  | user
deriving DecidableEq, Repr

/-- Modelled from the spec: a `reason.PodRestart` value (reason package not
under src/): a source tag and an ordered list of human-readable cause
messages; `HasMessages` holds when the list is non-empty. -/
structure PodRestartReason where
  source : RestartSource
  messages : List String
deriving DecidableEq, Repr

/-- Modelled from the spec: `Reason.HasMessages` of the reason package. -/
def PodRestartReason.hasMessages (r : PodRestartReason) : Bool :=
  !r.messages.isEmpty

/-- The phase of a notification event (`event.Phase`). -/
inductive NotifPhase where
  | base
  | user
deriving DecidableEq, Repr

/-- Embeds `event.Event` (the Jenkins instance reference is dropped: no
claim reads it). -/
structure NotificationEvt where
  phase : NotifPhase
  level : NotificationLevel
  reason : PodRestartReason
deriving DecidableEq, Repr

/-- A notification channel config (`v1alpha2.Notification`): which provider
pointer is non-nil and the configured minimum severity (`LoggingLevel`). -/
structure NotificationCfg where
  slack : Bool
  teams : Bool
  mailgun : Bool
  smtp : Bool
  loggingLevel : NotificationLevel
deriving DecidableEq, Repr

/-- A channel config is of a recognized kind when any provider field is set;
otherwise the `default` branch of the switch skips it. -/
def recognizedChannel (cfg : NotificationCfg) : Bool :=
  cfg.slack || cfg.teams || cfg.mailgun || cfg.smtp

/-- The per-channel decision of the `Listen` loop body: dispatch unless the
kind is unrecognized or the event is Info-level and the channel wants
Warning-and-above. -/
def listenDispatchesTo (e : NotificationEvt) (cfg : NotificationCfg) : Bool :=
  recognizedChannel cfg &&
    !(decide (e.level = NotificationLevel.info) &&
      decide (cfg.loggingLevel = NotificationLevel.warning))

/-- Embeds the handling of one event by `Listen`: an event whose reason has
no messages is dropped before the channel loop; otherwise each configured
channel gets exactly one `Send` call unless filtered.  Returns the list of
channel configs dispatched to, in configuration order. -/
def listenProcessEvent (e : NotificationEvt) (cfgs : List NotificationCfg) :
    List NotificationCfg :=
  if !e.reason.hasMessages then []
  else cfgs.filter (listenDispatchesTo e)

/-- Counterexample to C5 as stated: an Info-level event whose reason carries
no messages, sent to a recognized Slack channel with minimum level Info, is
outside the Info-vs-Warning filter, yet zero dispatch calls are made — the
event is dropped before the channel loop. -/
theorem listen_messageless_event_counterexample :
    recognizedChannel
        { slack := true, teams := false, mailgun := false, smtp := false,
          loggingLevel := NotificationLevel.info } = true ∧
    ¬(NotificationEvt.level
          { phase := NotifPhase.base, level := NotificationLevel.info,
            reason := { source := RestartSource.operator, messages := [] } } =
          NotificationLevel.info ∧
        NotificationCfg.loggingLevel
          { slack := true, teams := false, mailgun := false, smtp := false,
            loggingLevel := NotificationLevel.info } = NotificationLevel.warning) ∧
    listenProcessEvent
        { phase := NotifPhase.base, level := NotificationLevel.info,
          reason := { source := RestartSource.operator, messages := [] } }
        [{ slack := true, teams := false, mailgun := false, smtp := false,
           loggingLevel := NotificationLevel.info }] = [] := by
  decide

/-- C5 (amended): for a recognized channel, an Info event against a
Warning-minimum channel is never dispatched; and when the event carries at
least one cause message, every other level combination dispatches exactly
once to that channel. -/
theorem listen_severity_filter (e : NotificationEvt) (cfg : NotificationCfg)
    (hrec : recognizedChannel cfg = true) :
    (e.level = NotificationLevel.info ∧
        cfg.loggingLevel = NotificationLevel.warning →
      listenProcessEvent e [cfg] = []) ∧
    (e.reason.hasMessages = true →
      ¬(e.level = NotificationLevel.info ∧
          cfg.loggingLevel = NotificationLevel.warning) →
      listenProcessEvent e [cfg] = [cfg]) := by
  obtain ⟨ph, lvl, rsn⟩ := e
  obtain ⟨s, t, m, sm, ll⟩ := cfg
  cases lvl <;> cases ll <;>
    simp_all [listenProcessEvent, listenDispatchesTo, recognizedChannel,
      List.filter] <;>
    intro _ <;> rcases hrec with ((h | h) | h) | h <;> simp [h]

/-- Witness for C5 (amended): a concrete Info event with one message is not
dispatched to a Warning-minimum Slack channel, and is dispatched exactly
once to an Info-minimum Slack channel. -/
theorem listen_severity_filter_witness :
    listenProcessEvent
        { phase := NotifPhase.base, level := NotificationLevel.info,
          reason := { source := RestartSource.operator, messages := ["m"] } }
        [{ slack := true, teams := false, mailgun := false, smtp := false,
           loggingLevel := NotificationLevel.warning }] = [] ∧
    listenProcessEvent
        { phase := NotifPhase.base, level := NotificationLevel.info,
          reason := { source := RestartSource.operator, messages := ["m"] } }
        [{ slack := true, teams := false, mailgun := false, smtp := false,
           loggingLevel := NotificationLevel.info }] =
      [{ slack := true, teams := false, mailgun := false, smtp := false,
         loggingLevel := NotificationLevel.info }] := by
  constructor
  · exact (listen_severity_filter _ _ (by decide)).1 (by decide)
  · exact (listen_severity_filter _ _ (by decide)).2 (by decide) (by decide)

/-! ## The base-configuration reconcile cycle (reconciler.go, Reconcile) -/

/-- Errors of platform and management-API calls, carried opaquely. -/
abbrev Err := String

/-- A `reconcile.Result`: requeue flag and requeue delay in seconds. -/
structure ReconcileResult where
  requeue : Bool
  requeueAfter : Nat
deriving DecidableEq, Repr

/-- `corev1.PodPhase`, restricted to the comparisons the code makes. -/
inductive PodPhase where
  | pending
  | running
  | succeeded
  | failed
  | unknown
deriving DecidableEq, Repr

/-- A `corev1.ContainerStatus`: name, whether `State.Terminated` is non-nil,
and readiness. -/
structure ContainerStatus where
  name : String
  terminated : Bool
  ready : Bool
deriving DecidableEq, Repr

/-- The master pod facts the reconciler reads.  `terminating` stands for the
outcome of `IsJenkinsTerminating` (pkg/configuration, not under src/; per
the spec this is the Terminating workload state). -/
structure PodInfo where
  name : String
  phase : PodPhase
  containerStatuses : List ContainerStatus
  terminating : Bool
deriving DecidableEq, Repr

/-- A `corev1.Event`, restricted to the fields `filterEvents` reads.
Timestamps are seconds. -/
structure KubeEvent where
  name : String
  lastTimestamp : Nat
  eventType : String
  message : String
  fieldPath : String
deriving DecidableEq, Repr

/-- `corev1.EventTypeNormal`. -/
def eventTypeNormal : String := "Normal"

/-- Embeds `filterEvents`: keeps (formatted) the events not earlier than the
provisioning start, of non-Normal type, whose object name has the pod name
as a prefix. -/
def filterEvents (provisionStart : Nat) (events : List KubeEvent)
    (podName : String) : List String :=
  events.filterMap fun ev =>
    if provisionStart > ev.lastTimestamp then none
    else if ev.eventType == eventTypeNormal then none
    else if !(strStartsWith ev.name podName) then none
    else some ("Message: " ++ ev.message ++ " Subobject: " ++ ev.fieldPath)

/-- The environment of one reconcile cycle: the outcomes of every platform
or collaborator call the cycle may make, plus the observed clock.  Stage
functions whose bodies are not under src/ (`ensureJenkinsDeployment`,
`ensureJenkinsMasterPod`, `GetJenkinsMasterPod`, `GetJenkinsClient`,
`verifyPlugins`, `RestartJenkinsMasterPod`, `groovyClient.Ensure`) are
represented by their returned values, as the spec specifies them only at
their interface boundary. -/
structure CycleEnv where
  useDeployment : Bool
  ensureResourcesErr : Option Err
  deploymentOutcome : Except Err ReconcileResult
  podOutcome : Except Err ReconcileResult
  masterPod : Except Err PodInfo
  provisionStart : Option Nat
  now : Nat
  eventsList : Except Err (List KubeEvent)
  getClientErr : Option Err
  verifyPluginsOutcome : Except Err Bool
  restartErr : Option Err
  baseConfigRequeue : Bool
  baseConfigErr : Option Err
deriving Repr

/-- Embeds `detectJenkinsMasterPodStartingIssues`: stop when the stored
provisioning-start timestamp is absent; for a Pending pod past the 2-minute
bound, stop exactly when at least one filtered event exists. -/
def detectJenkinsMasterPodStartingIssues (env : CycleEnv) : Except Err Bool :=
  match env.masterPod with
  | Except.error e => Except.error e
  | Except.ok pod =>
    match env.provisionStart with
    | none => Except.ok true
    | some start =>
      if pod.phase = PodPhase.pending then
        if env.now > start + 120 then
          match env.eventsList with
          | Except.error e => Except.error e
          | Except.ok evts =>
            if (filterEvents start evts pod.name).isEmpty then Except.ok false
            else Except.ok true
        else Except.ok false
      else Except.ok false

/-- Modelled from the spec: `RestartJenkinsMasterPod` (pkg/configuration,
not under src/) issues the single restart action carrying the given reason,
emits one Warning-level notification event carrying the same reason, and
returns the platform error supplied by the environment. -/
def restartJenkinsMasterPod (env : CycleEnv) (rsn : PodRestartReason) :
    Option Err × List PodRestartReason × List NotificationEvt :=
  (env.restartErr, [rsn],
   [{ phase := NotifPhase.base, level := NotificationLevel.warning,
      reason := rsn }])

/-- The message formatted for a terminated container.  (The Go code formats
the container name and its full status dump; only the fact that a single
message is produced matters to the claims.) -/
def containerTerminatedMessage (cs : ContainerStatus) : String :=
  "Container " ++ cs.name ++ " is terminated"

/-- The container loop of `waitForJenkins`: returns the first terminated
container if any, else the count of ready containers. -/
def findTerminatedOrCountReady :
    List ContainerStatus → Nat → Option ContainerStatus × Nat
  | [], n => (none, n)
  | cs :: rest, n =>
    if cs.terminated then (some cs, n)
    else findTerminatedOrCountReady rest (if cs.ready then n + 1 else n)

/-- Outcome of `waitForJenkins`: the result and error returned, plus the
restart actions and notifications it caused. -/
structure WaitOutcome where
  result : ReconcileResult
  err : Option Err
  restarts : List PodRestartReason
  notifications : List NotificationEvt
deriving DecidableEq, Repr

/-- Embeds `waitForJenkins`: short 5-second requeue while terminating, not
running, or not all containers ready; a terminated container triggers a
Kubernetes-sourced restart and an immediate requeue; all ready proceeds. -/
def waitForJenkins (env : CycleEnv) : WaitOutcome :=
  match env.masterPod with
  | Except.error e =>
    { result := { requeue := false, requeueAfter := 0 }, err := some e,
      restarts := [], notifications := [] }
  | Except.ok pod =>
    if pod.terminating then
      { result := { requeue := true, requeueAfter := 5 }, err := none,
        restarts := [], notifications := [] }
    else if pod.phase = PodPhase.running then
      match findTerminatedOrCountReady pod.containerStatuses 0 with
      | (some cs, _) =>
        let rsn : PodRestartReason :=
          { source := RestartSource.kubernetes,
            messages := [containerTerminatedMessage cs] }
        let eff := restartJenkinsMasterPod env rsn
        { result := { requeue := true, requeueAfter := 0 }, err := eff.1,
          restarts := eff.2.1, notifications := eff.2.2 }
      | (none, readyCount) =>
        if readyCount = pod.containerStatuses.length then
          { result := { requeue := false, requeueAfter := 0 }, err := none,
            restarts := [], notifications := [] }
        else
          { result := { requeue := true, requeueAfter := 5 }, err := none,
            restarts := [], notifications := [] }
    else
      { result := { requeue := true, requeueAfter := 5 }, err := none,
        restarts := [], notifications := [] }

/-- The message accompanying a plugin-drift restart. -/
def pluginsChangedMessage : String := "Some plugins have changed, restarting Jenkins"

/-- Outcome of a reconcile cycle: the returned result, whether a non-nil
Jenkins client is returned, the returned error, and the trace of restart
actions, notifications and whether the configuration-payload stage ran. -/
structure CycleOutcome where
  result : ReconcileResult
  clientAcquired : Bool
  err : Option Err
  restarts : List PodRestartReason
  notifications : List NotificationEvt
  ranBaseConfig : Bool
deriving DecidableEq, Repr

/-- The outcome of an aborting stage error: empty result, the error, no
effects. -/
def errOutcome (e : Err) : CycleOutcome :=
  { result := { requeue := false, requeueAfter := 0 }, clientAcquired := false,
    err := some e, restarts := [], notifications := [], ranBaseConfig := false }

/-- The tail of `Reconcile` after the Jenkins client is acquired: the plugin
drift check; on mismatch the operator-sourced restart, otherwise the
base-configuration payload stage. -/
def reconcileAfterClient (env : CycleEnv) : CycleOutcome :=
  match env.verifyPluginsOutcome with
  | Except.error e => errOutcome e
  | Except.ok ok =>
    if ok then
      { result := { requeue := env.baseConfigRequeue, requeueAfter := 0 },
        clientAcquired := true, err := env.baseConfigErr, restarts := [],
        notifications := [], ranBaseConfig := true }
    else
      let rsn : PodRestartReason :=
        { source := RestartSource.operator, messages := [pluginsChangedMessage] }
      let eff := restartJenkinsMasterPod env rsn
      { result := { requeue := true, requeueAfter := 0 },
        clientAcquired := false, err := eff.1, restarts := eff.2.1,
        notifications := eff.2.2, ranBaseConfig := false }

/-- The tail of `Reconcile` after the starting-issue detector lets the cycle
continue: wait for readiness, acquire the client, then the drift check and
payload stage. -/
def reconcileAfterDetect (env : CycleEnv) : CycleOutcome :=
  let w := waitForJenkins env
  match w.err with
  | some e =>
    { result := { requeue := false, requeueAfter := 0 }, clientAcquired := false,
      err := some e, restarts := w.restarts, notifications := w.notifications,
      ranBaseConfig := false }
  | none =>
    if w.result.requeue then
      { result := w.result, clientAcquired := false, err := none,
        restarts := w.restarts, notifications := w.notifications,
        ranBaseConfig := false }
    else
      match env.getClientErr with
      | some e =>
        { result := { requeue := false, requeueAfter := 0 },
          clientAcquired := false, err := some e, restarts := w.restarts,
          notifications := w.notifications, ranBaseConfig := false }
      | none =>
        let rest := reconcileAfterClient env
        { rest with restarts := w.restarts ++ rest.restarts,
                    notifications := w.notifications ++ rest.notifications }

/-- Embeds `Reconcile`: supporting resources, then either the deployment
branch or the pod branch with the starting-issue detector, readiness wait,
client acquisition, plugin drift check and payload stage. -/
def Reconcile (env : CycleEnv) : CycleOutcome :=
  match env.ensureResourcesErr with
  | some e => errOutcome e
  | none =>
    if env.useDeployment then
      match env.deploymentOutcome with
      | Except.error e => errOutcome e
      | Except.ok res =>
        { result := res, clientAcquired := false, err := none, restarts := [],
          notifications := [], ranBaseConfig := false }
    else
      match env.podOutcome with
      | Except.error e => errOutcome e
      | Except.ok res =>
        if res.requeue then
          { result := res, clientAcquired := false, err := none, restarts := [],
            notifications := [], ranBaseConfig := false }
        else
          match detectJenkinsMasterPodStartingIssues env with
          | Except.error e => errOutcome e
          | Except.ok true =>
            { result := { requeue := false, requeueAfter := 0 },
              clientAcquired := false, err := none, restarts := [],
              notifications := [], ranBaseConfig := false }
          | Except.ok false => reconcileAfterDetect env

/-- C1: when every stage up to client acquisition succeeds without requeue
and the plugin drift check reports a mismatch, the cycle issues exactly one
restart action with the Operator source and the single message about
changed plugins, emits exactly one Warning-level notification event with
that reason, returns a requeuing result (the error being whatever the
restart action returns), and never runs the configuration-payload stage. -/
theorem reconcile_plugin_drift_restart (env : CycleEnv) (pr : ReconcileResult)
    (hdep : env.useDeployment = false)
    (hres : env.ensureResourcesErr = none)
    (hpod : env.podOutcome = Except.ok pr)
    (hprq : pr.requeue = false)
    (hdet : detectJenkinsMasterPodStartingIssues env = Except.ok false)
    (hwait : waitForJenkins env =
      { result := { requeue := false, requeueAfter := 0 }, err := none,
        restarts := [], notifications := [] })
    (hcli : env.getClientErr = none)
    (hver : env.verifyPluginsOutcome = Except.ok false) :
    Reconcile env =
      { result := { requeue := true, requeueAfter := 0 },
        clientAcquired := false,
        err := env.restartErr,
        restarts := [{ source := RestartSource.operator,
                       messages := [pluginsChangedMessage] }],
        notifications := [{ phase := NotifPhase.base,
                            level := NotificationLevel.warning,
                            reason := { source := RestartSource.operator,
                                        messages := [pluginsChangedMessage] } }],
        ranBaseConfig := false } := by
  simp only [Reconcile, hres, hdep, hpod, hprq, hdet, Bool.false_eq_true,
    if_false, reconcileAfterDetect, hwait, hcli, reconcileAfterClient, hver,
    restartJenkinsMasterPod, List.nil_append]

/-- A concrete environment exercising the plugin-drift branch: a ready
running pod, a recorded provisioning start, and a drift-reporting check. -/
def pluginDriftEnv : CycleEnv :=
  { useDeployment := false
    ensureResourcesErr := none
    deploymentOutcome := Except.ok { requeue := false, requeueAfter := 0 }
    podOutcome := Except.ok { requeue := false, requeueAfter := 0 }
    masterPod := Except.ok
      { name := "jenkins"
        phase := PodPhase.running
        containerStatuses := [{ name := "master", terminated := false, ready := true }]
        terminating := false }
    provisionStart := some 0
    now := 10
    eventsList := Except.ok []
    getClientErr := none
    verifyPluginsOutcome := Except.ok false
    restartErr := none
    baseConfigRequeue := false
    baseConfigErr := none }

/-- Witness for C1: the drift branch evaluated on the concrete environment. -/
theorem reconcile_plugin_drift_restart_witness :
    Reconcile pluginDriftEnv =
      { result := { requeue := true, requeueAfter := 0 },
        clientAcquired := false,
        err := none,
        restarts := [{ source := RestartSource.operator,
                       messages := [pluginsChangedMessage] }],
        notifications := [{ phase := NotifPhase.base,
                            level := NotificationLevel.warning,
                            reason := { source := RestartSource.operator,
                                        messages := [pluginsChangedMessage] } }],
        ranBaseConfig := false } :=
  reconcile_plugin_drift_restart pluginDriftEnv
    { requeue := false, requeueAfter := 0 } rfl rfl rfl rfl rfl rfl rfl rfl

/-- C3: for a Pending pod whose recorded provisioning start lies more than
2 minutes in the past: if no namespace event passes the filter (not earlier
than provisioning start, non-Normal type, object name prefixed by the pod
name), the detector signals stop=false and the cycle requeues; if at least
one event passes, it signals stop=true. -/
theorem detect_pending_timeout (env : CycleEnv) (pod : PodInfo)
    (start : Nat) (evts : List KubeEvent)
    (hpod : env.masterPod = Except.ok pod)
    (hphase : pod.phase = PodPhase.pending)
    (hstart : env.provisionStart = some start)
    (hnow : start + 120 < env.now)
    (hevts : env.eventsList = Except.ok evts) :
    (filterEvents start evts pod.name = [] →
      detectJenkinsMasterPodStartingIssues env = Except.ok false ∧
      (env.useDeployment = false → env.ensureResourcesErr = none →
        ∀ pr : ReconcileResult, env.podOutcome = Except.ok pr →
          pr.requeue = false →
          (Reconcile env).result = { requeue := true, requeueAfter := 5 } ∧
          (Reconcile env).err = none)) ∧
    (filterEvents start evts pod.name ≠ [] →
      detectJenkinsMasterPodStartingIssues env = Except.ok true) := by
  constructor
  · intro hemp
    have hdet : detectJenkinsMasterPodStartingIssues env = Except.ok false := by
      simp [detectJenkinsMasterPodStartingIssues, hpod, hstart, hphase, hnow,
        hevts, hemp]
    refine ⟨hdet, ?_⟩
    intro hdep hres pr hpodres hprq
    have hwait : waitForJenkins env =
        { result := { requeue := true, requeueAfter := 5 }, err := none,
          restarts := [], notifications := [] } := by
      by_cases ht : pod.terminating
      · simp [waitForJenkins, hpod, ht]
      · simp [waitForJenkins, hpod, ht, hphase]
    simp [Reconcile, hres, hdep, hpodres, hprq, hdet, reconcileAfterDetect,
      hwait]
  · intro hne
    simp [detectJenkinsMasterPodStartingIssues, hpod, hstart, hphase, hnow,
      hevts, List.isEmpty_iff, hne]

/-- A Pending pod three-plus minutes past provisioning start with no
matching events. -/
def pendingQuietEnv : CycleEnv :=
  { useDeployment := false
    ensureResourcesErr := none
    deploymentOutcome := Except.ok { requeue := false, requeueAfter := 0 }
    podOutcome := Except.ok { requeue := false, requeueAfter := 0 }
    masterPod := Except.ok
      { name := "jenkins"
        phase := PodPhase.pending
        containerStatuses := []
        terminating := false }
    provisionStart := some 0
    now := 180
    eventsList := Except.ok []
    getClientErr := none
    verifyPluginsOutcome := Except.ok true
    restartErr := none
    baseConfigRequeue := false
    baseConfigErr := none }

/-- The same state with one matching warning event. -/
def pendingEventEnv : CycleEnv :=
  { pendingQuietEnv with
    eventsList := Except.ok
      [{ name := "jenkins-master-0"
         lastTimestamp := 10
         eventType := "Warning"
         message := "failed scheduling"
         fieldPath := "" }] }

/-- Witness for C3: the quiet environment continues waiting with a requeue,
the environment with one matching warning event stops. -/
theorem detect_pending_timeout_witness :
    detectJenkinsMasterPodStartingIssues pendingQuietEnv = Except.ok false ∧
    (Reconcile pendingQuietEnv).result = { requeue := true, requeueAfter := 5 } ∧
    detectJenkinsMasterPodStartingIssues pendingEventEnv = Except.ok true := by
  refine ⟨?_, ?_, ?_⟩
  · exact ((detect_pending_timeout pendingQuietEnv
      { name := "jenkins", phase := PodPhase.pending, containerStatuses := [],
        terminating := false } 0 [] rfl rfl rfl (by decide) rfl).1 rfl).1
  · exact (((detect_pending_timeout pendingQuietEnv
      { name := "jenkins", phase := PodPhase.pending, containerStatuses := [],
        terminating := false } 0 [] rfl rfl rfl (by decide) rfl).1 rfl).2
      rfl rfl { requeue := false, requeueAfter := 0 } rfl rfl).1
  · exact (detect_pending_timeout pendingEventEnv
      { name := "jenkins", phase := PodPhase.pending, containerStatuses := [],
        terminating := false } 0
      [{ name := "jenkins-master-0", lastTimestamp := 10,
         eventType := "Warning", message := "failed scheduling",
         fieldPath := "" }] rfl rfl rfl (by decide) rfl).2 (by decide)

/-- A cycle with a recorded provisioning start, a Pending pod past the
2-minute bound and one matching warning event: the detector stops. -/
def timeoutStopEnv : CycleEnv :=
  { useDeployment := false
    ensureResourcesErr := none
    deploymentOutcome := Except.ok { requeue := false, requeueAfter := 0 }
    podOutcome := Except.ok { requeue := false, requeueAfter := 0 }
    masterPod := Except.ok
      { name := "jenkins"
        phase := PodPhase.pending
        containerStatuses := []
        terminating := false }
    provisionStart := some 0
    now := 121
    eventsList := Except.ok
      [{ name := "jenkins-master-0"
         lastTimestamp := 10
         eventType := "Warning"
         message := "failed scheduling"
         fieldPath := "" }]
    getClientErr := none
    verifyPluginsOutcome := Except.ok true
    restartErr := none
    baseConfigRequeue := false
    baseConfigErr := none }

/-- Counterexample to C4 as stated: the provisioning-start timestamp is
present (`some 0`, not nil), yet the detector signals stop and the cycle
returns the very same non-requeuing, nil-error outcome — the nil-timestamp
case is therefore not the only terminal, non-retrying outcome of the
cycle. -/
theorem reconcile_terminal_not_unique_counterexample :
    timeoutStopEnv.provisionStart = some 0 ∧
    detectJenkinsMasterPodStartingIssues timeoutStopEnv = Except.ok true ∧
    Reconcile timeoutStopEnv =
      { result := { requeue := false, requeueAfter := 0 },
        clientAcquired := false, err := none, restarts := [],
        notifications := [], ranBaseConfig := false } :=
  ⟨rfl, rfl, rfl⟩

/-- C4 (amended): when the stored provisioning-start timestamp is absent
the detector signals stop, and the cycle then returns a non-requeuing
result with nil error; in pod mode this detector-stop outcome is the only
non-error, non-requeuing outcome that halts before the
configuration-payload stage; and the detector stops exactly when the
timestamp is absent or a Pending pod past the 2-minute bound has at least
one matching warning event. -/
theorem reconcile_detector_stop_terminal (env : CycleEnv) :
    (∀ pod : PodInfo, env.masterPod = Except.ok pod → env.provisionStart = none →
      detectJenkinsMasterPodStartingIssues env = Except.ok true) ∧
    (env.useDeployment = false → env.ensureResourcesErr = none →
      ∀ pr : ReconcileResult, env.podOutcome = Except.ok pr → pr.requeue = false →
        detectJenkinsMasterPodStartingIssues env = Except.ok true →
        Reconcile env =
          { result := { requeue := false, requeueAfter := 0 },
            clientAcquired := false, err := none, restarts := [],
            notifications := [], ranBaseConfig := false }) ∧
    (env.useDeployment = false → (Reconcile env).err = none →
      (Reconcile env).result.requeue = false →
      (Reconcile env).ranBaseConfig = false →
      detectJenkinsMasterPodStartingIssues env = Except.ok true) ∧
    (∀ pod : PodInfo, env.masterPod = Except.ok pod →
      (detectJenkinsMasterPodStartingIssues env = Except.ok true ↔
        (env.provisionStart = none ∨
         ∃ start, env.provisionStart = some start ∧
           pod.phase = PodPhase.pending ∧ start + 120 < env.now ∧
           ∃ evts, env.eventsList = Except.ok evts ∧
             filterEvents start evts pod.name ≠ []))) := by
  refine ⟨?_, ?_, ?_, ?_⟩
  · intro pod hpod hps
    simp [detectJenkinsMasterPodStartingIssues, hpod, hps]
  · intro hdep hres pr hpodres hprq hdet
    simp [Reconcile, hres, hdep, hpodres, hprq, hdet]
  · intro hdep herr hrq hrb
    cases hres : env.ensureResourcesErr with
    | some e => simp [Reconcile, hres, errOutcome] at herr
    | none =>
      cases hpo : env.podOutcome with
      | error e => simp [Reconcile, hres, hdep, hpo, errOutcome] at herr
      | ok res =>
        by_cases hr : res.requeue
        · simp [Reconcile, hres, hdep, hpo, hr] at hrq
        · cases hdet : detectJenkinsMasterPodStartingIssues env with
          | error e => simp [Reconcile, hres, hdep, hpo, hr, hdet, errOutcome] at herr
          | ok b =>
            cases b with
            | true => rfl
            | false =>
              exfalso
              cases hw : (waitForJenkins env).err with
              | some e =>
                simp [Reconcile, hres, hdep, hpo, hr, hdet,
                  reconcileAfterDetect, hw] at herr
              | none =>
                by_cases hwr : (waitForJenkins env).result.requeue
                · simp [Reconcile, hres, hdep, hpo, hr, hdet,
                    reconcileAfterDetect, hw, hwr] at hrq
                · cases hcli : env.getClientErr with
                  | some e =>
                    simp [Reconcile, hres, hdep, hpo, hr, hdet,
                      reconcileAfterDetect, hw, hwr, hcli] at herr
                  | none =>
                    cases hvp : env.verifyPluginsOutcome with
                    | error e =>
                      simp [Reconcile, hres, hdep, hpo, hr, hdet,
                        reconcileAfterDetect, hw, hwr, hcli,
                        reconcileAfterClient, hvp, errOutcome] at herr
                    | ok b2 =>
                      cases b2 with
                      | true =>
                        simp [Reconcile, hres, hdep, hpo, hr, hdet,
                          reconcileAfterDetect, hw, hwr, hcli,
                          reconcileAfterClient, hvp] at hrb
                      | false =>
                        simp [Reconcile, hres, hdep, hpo, hr, hdet,
                          reconcileAfterDetect, hw, hwr, hcli,
                          reconcileAfterClient, hvp,
                          restartJenkinsMasterPod] at hrq
  · intro pod hpod
    constructor
    · intro hdet
      cases hps : env.provisionStart with
      | none => exact Or.inl rfl
      | some start =>
        right
        refine ⟨start, rfl, ?_⟩
        by_cases hph : pod.phase = PodPhase.pending
        · by_cases hn : start + 120 < env.now
          · cases hev : env.eventsList with
            | error e =>
              simp [detectJenkinsMasterPodStartingIssues, hpod, hps, hph, hn,
                hev] at hdet
            | ok evts =>
              by_cases hfe : (filterEvents start evts pod.name).isEmpty
              · simp [detectJenkinsMasterPodStartingIssues, hpod, hps, hph,
                  hn, hev, hfe] at hdet
              · exact ⟨hph, hn, evts, rfl, by
                  simpa [List.isEmpty_iff] using hfe⟩
          · simp [detectJenkinsMasterPodStartingIssues, hpod, hps, hph,
              hn] at hdet
        · simp [detectJenkinsMasterPodStartingIssues, hpod, hps, hph] at hdet
    · rintro (hps | ⟨start, hps, hph, hn, evts, hev, hne⟩)
      · simp [detectJenkinsMasterPodStartingIssues, hpod, hps]
      · simp [detectJenkinsMasterPodStartingIssues, hpod, hps, hph, hn, hev,
          List.isEmpty_iff, hne]

/-- A first cycle with no provisioning-start recorded. -/
def noProvisionEnv : CycleEnv :=
  { useDeployment := false
    ensureResourcesErr := none
    deploymentOutcome := Except.ok { requeue := false, requeueAfter := 0 }
    podOutcome := Except.ok { requeue := false, requeueAfter := 0 }
    masterPod := Except.ok
      { name := "jenkins"
        phase := PodPhase.pending
        containerStatuses := []
        terminating := false }
    provisionStart := none
    now := 0
    eventsList := Except.ok []
    getClientErr := none
    verifyPluginsOutcome := Except.ok true
    restartErr := none
    baseConfigRequeue := false
    baseConfigErr := none }

/-- Witness for C4 (amended): with no provisioning record the detector
stops and the cycle returns the terminal non-requeuing nil-error outcome. -/
theorem reconcile_detector_stop_terminal_witness :
    detectJenkinsMasterPodStartingIssues noProvisionEnv = Except.ok true ∧
    Reconcile noProvisionEnv =
      { result := { requeue := false, requeueAfter := 0 },
        clientAcquired := false, err := none, restarts := [],
        notifications := [], ranBaseConfig := false } := by
  have hdet : detectJenkinsMasterPodStartingIssues noProvisionEnv =
      Except.ok true :=
    (reconcile_detector_stop_terminal noProvisionEnv).1
      { name := "jenkins", phase := PodPhase.pending, containerStatuses := [],
        terminating := false } rfl rfl
  exact ⟨hdet, (reconcile_detector_stop_terminal noProvisionEnv).2.1 rfl rfl
    { requeue := false, requeueAfter := 0 } rfl rfl hdet⟩

end KubernetesOperator
